import Mathlib

/-!
Verification of the battery-cell monitoring model.

Shallow embedding of the core model of `app2.py` (specification table,
status classification, simulation step, manual update, cell seeding,
history log truncation) and of the companion command-line script `w1.py`.
Python floats are modelled as rationals; Python `round(x, n)` is modelled
by `roundTo n` (round to nearest at `n` decimal digits). Timestamps are
modelled as natural numbers, random draws as explicit rational arguments.
-/

/-- Model of Python `round(x, n)`: round `x` to `n` decimal places. -/
def roundTo (n : ℕ) (x : ℚ) : ℚ := (round (x * 10 ^ n) : ℚ) / 10 ^ n

/-- One entry of the chemistry specification table of `get_cell_specs`. -/
structure CellSpecs where
  nominal_voltage : ℚ
  min_voltage : ℚ
  max_voltage : ℚ
  max_current : ℚ
  color : String
deriving DecidableEq, Repr

def lfpSpecs : CellSpecs :=
  { nominal_voltage := 3.2, min_voltage := 2.8, max_voltage := 3.6,
    max_current := 100.0, color := "#2E8B57" }

def nmcSpecs : CellSpecs :=
  { nominal_voltage := 3.6, min_voltage := 3.2, max_voltage := 4.0,
    max_current := 120.0, color := "#4169E1" }

def ltoSpecs : CellSpecs :=
  { nominal_voltage := 2.4, min_voltage := 1.5, max_voltage := 2.8,
    max_current := 200.0, color := "#FF6347" }

def lifepo4Specs : CellSpecs :=
  { nominal_voltage := 3.3, min_voltage := 2.5, max_voltage := 3.65,
    max_current := 150.0, color := "#9370DB" }

/-- `get_cell_specs` of `app2.py`: dictionary lookup with
`specs.get(cell_type, specs["lfp"])`, i.e. unknown identifiers silently
receive the lfp entry. -/
def get_cell_specs (cell_type : String) : CellSpecs :=
  if cell_type = "lfp" then lfpSpecs
  else if cell_type = "nmc" then nmcSpecs
  else if cell_type = "lto" then ltoSpecs
  else if cell_type = "lifepo4" then lifepo4Specs
  else lfpSpecs

/-- Status levels `"Good"`, `"Warning"`, `"Critical"` of `app2.py`. -/
inductive Status where
  | good
  | warning
  | critical
deriving DecidableEq, Repr

/-- Numeric severity: Good < Warning < Critical. -/
def Status.sev : Status → ℕ
  | .good => 0
  | .warning => 1
  | .critical => 2

/-- Maximum of two statuses by severity. -/
def statusMax (a b : Status) : Status := if a.sev < b.sev then b else a

/-- The alert messages `check_cell_status` can append, with the numeric
values interpolated into the Python f-strings kept as payload. -/
inductive Alert where
  | voltageLow (v minV : ℚ)
  | voltageHigh (v maxV : ℚ)
  | currentHigh (c maxC : ℚ)
  | tempHigh (t : ℚ)
  | tempElevated (t : ℚ)
  | tempLow (t : ℚ)
deriving DecidableEq, Repr

/-- A cell's mutable reading: the dict stored in
`st.session_state.cells_data[cell_key]` in `app2.py`. -/
structure CellData where
  voltage : ℚ
  current : ℚ
  temp : ℚ
  capacity : ℚ
  min_voltage : ℚ
  max_voltage : ℚ
  timestamp : ℕ
deriving DecidableEq, Repr

/-- `check_cell_status(cell_data, cell_type)` of `app2.py`: sequential
voltage / current / temperature checks mutating `status` and appending
to `alerts`. Each Python branch assigns `status` and appends one alert;
here the two effects of each branch appear as paired conditionals with
identical guards. -/
def check_cell_status (cell_data : CellData) (cell_type : String) :
    Status × List Alert :=
  let specs := get_cell_specs cell_type
  let voltage := cell_data.voltage
  let current := cell_data.current
  let temp := cell_data.temp
  let status0 := Status.good
  let alerts0 : List Alert := []
  let status1 :=
    if voltage < specs.min_voltage then Status.critical
    else if voltage > specs.max_voltage then Status.critical
    else status0
  let alerts1 :=
    if voltage < specs.min_voltage then
      alerts0 ++ [Alert.voltageLow voltage specs.min_voltage]
    else if voltage > specs.max_voltage then
      alerts0 ++ [Alert.voltageHigh voltage specs.max_voltage]
    else alerts0
  let status2 :=
    if |current| > specs.max_current then
      (if status1 = Status.good then Status.warning else status1)
    else status1
  let alerts2 :=
    if |current| > specs.max_current then
      alerts1 ++ [Alert.currentHigh |current| specs.max_current]
    else alerts1
  let status3 :=
    if temp > 45 then Status.critical
    else if temp > 40 then
      (if status2 = Status.good then Status.warning else status2)
    else if temp < 0 then
      (if status2 = Status.good then Status.warning else status2)
    else status2
  let alerts3 :=
    if temp > 45 then alerts2 ++ [Alert.tempHigh temp]
    else if temp > 40 then alerts2 ++ [Alert.tempElevated temp]
    else if temp < 0 then alerts2 ++ [Alert.tempLow temp]
    else alerts2
  (status3, alerts3)

/-- The chemistry identifier recovered from a cell key by
`cell_key.split('_')[2]`, modelled on the key's character list. -/
def cellTypeOfKey (cell_key : String) : String :=
  String.mk ((cell_key.toList.splitOn '_').getD 2 [])

/-- `simulate_real_time_data(cell_key, base_data)` of `app2.py`, with the
three `random.uniform` draws and the wall clock passed explicitly. -/
def simulate_real_time_data (cell_key : String) (base_data : CellData)
    (vDraw tDraw iDraw : ℚ) (now : ℕ) : CellData :=
  let cell_type := cellTypeOfKey cell_key
  let specs := get_cell_specs cell_type
  let new_voltage := max specs.min_voltage (min specs.max_voltage (base_data.voltage + vDraw))
  let new_temp := max 0 (min 50 (base_data.temp + tDraw))
  let new_current := base_data.current + iDraw
  { base_data with
    voltage := roundTo 3 new_voltage
    temp := roundTo 1 new_temp
    current := roundTo 2 new_current
    capacity := roundTo 2 (new_voltage * |new_current|)
    timestamp := now }

/-- The "Update Cell Data" button handler of `app2.py`: overwrite voltage,
current and temperature with the entered values and recompute capacity. -/
def update_cell_data (base_data : CellData)
    (new_voltage new_current new_temp : ℚ) (now : ℕ) : CellData :=
  { base_data with
    voltage := new_voltage
    current := new_current
    temp := new_temp
    capacity := roundTo 2 (new_voltage * |new_current|)
    timestamp := now }

/-- The cell initialization loop body of `app2.py`: a new cell is seeded at
nominal voltage, zero current, a rounded ambient temperature draw, zero
capacity, and its spec's voltage range. -/
def init_cell (cell_type : String) (tempDraw : ℚ) (now : ℕ) : CellData :=
  let specs := get_cell_specs cell_type
  { voltage := specs.nominal_voltage
    current := 0.0
    temp := roundTo 1 tempDraw
    capacity := 0.0
    min_voltage := specs.min_voltage
    max_voltage := specs.max_voltage
    timestamp := now }

/-- One history snapshot appended during a monitoring tick of `app2.py`. -/
structure HistoryEntry where
  timestamp : ℕ
  cell_id : String
  voltage : ℚ
  current : ℚ
  temp : ℚ
  capacity : ℚ
deriving DecidableEq, Repr

/-- The history bookkeeping of one monitoring tick of `app2.py`: append
this tick's entries, then `historical_data = historical_data[-800:]` when
the length exceeds the hard-coded 800. -/
def monitoring_tick_history (hist new_entries : List HistoryEntry) :
    List HistoryEntry :=
  let h := hist ++ new_entries
  if h.length > 800 then h.drop (h.length - 800) else h

/-- A cell dict of `w1.py` (no timestamp field there). -/
structure W1Cell where
  voltage : ℚ
  current : ℚ
  temp : ℚ
  capacity : ℚ
  min_voltage : ℚ
  max_voltage : ℚ
deriving DecidableEq, Repr

/-- The cell setup loop body of `w1.py`: per-chemistry values exist only
for `"lfp"`; every other entered type receives the nmc-style numbers. -/
def w1_init_cell (cell_type : String) (tempDraw : ℚ) : W1Cell :=
  let voltage : ℚ := if cell_type = "lfp" then 3.2 else 3.6
  let min_voltage : ℚ := if cell_type = "lfp" then 2.8 else 3.2
  let max_voltage : ℚ := if cell_type = "lfp" then 3.6 else 4.0
  let current : ℚ := 0.0
  let temp := roundTo 1 tempDraw
  let capacity := roundTo 2 (voltage * current)
  { voltage := voltage, current := current, temp := temp,
    capacity := capacity, min_voltage := min_voltage, max_voltage := max_voltage }

/-- The current-entry loop body of `w1.py`: store the entered current and
recompute `capacity = round(voltage * current, 2)` (no absolute value). -/
def w1_update_current (cell : W1Cell) (current : ℚ) : W1Cell :=
  { cell with current := current, capacity := roundTo 2 (cell.voltage * current) }

/-- Severity of the voltage dimension alone: Critical when the voltage
lies outside the spec's `[min_voltage, max_voltage]` range. -/
def voltage_severity (cell_data : CellData) (specs : CellSpecs) : Status :=
  if cell_data.voltage < specs.min_voltage ∨ cell_data.voltage > specs.max_voltage
  then Status.critical else Status.good

/-- Severity of the current dimension alone: Warning when the magnitude
of the current exceeds the spec's `max_current`. -/
def current_severity (cell_data : CellData) (specs : CellSpecs) : Status :=
  if |cell_data.current| > specs.max_current then Status.warning else Status.good

/-- Severity of the temperature dimension alone: Critical above 45,
Warning in `(40, 45]` or below 0. -/
def temperature_severity (cell_data : CellData) : Status :=
  if cell_data.temp > 45 then Status.critical
  else if (40 < cell_data.temp ∧ cell_data.temp ≤ 45) ∨ cell_data.temp < 0
  then Status.warning else Status.good

/-- The at-most-one voltage alert of a classification call. -/
def voltage_alert (cell_data : CellData) (specs : CellSpecs) : Option Alert :=
  if cell_data.voltage < specs.min_voltage then
    some (Alert.voltageLow cell_data.voltage specs.min_voltage)
  else if cell_data.voltage > specs.max_voltage then
    some (Alert.voltageHigh cell_data.voltage specs.max_voltage)
  else none

/-- The at-most-one current alert of a classification call. -/
def current_alert (cell_data : CellData) (specs : CellSpecs) : Option Alert :=
  if |cell_data.current| > specs.max_current then
    some (Alert.currentHigh |cell_data.current| specs.max_current)
  else none

/-- The at-most-one temperature alert of a classification call. -/
def temperature_alert (cell_data : CellData) : Option Alert :=
  if cell_data.temp > 45 then some (Alert.tempHigh cell_data.temp)
  else if cell_data.temp > 40 then some (Alert.tempElevated cell_data.temp)
  else if cell_data.temp < 0 then some (Alert.tempLow cell_data.temp)
  else none

lemma roundTo_mono (n : ℕ) {x y : ℚ} (h : x ≤ y) : roundTo n x ≤ roundTo n y := by
  unfold roundTo
  have hp : (0 : ℚ) < 10 ^ n := by positivity
  have hr : round (x * 10 ^ n) ≤ round (y * 10 ^ n) := by
    rw [round_eq, round_eq]
    exact Int.floor_le_floor
      (by nlinarith [mul_le_mul_of_nonneg_right h (le_of_lt hp)])
  exact (div_le_div_iff_of_pos_right hp).mpr (by exact_mod_cast hr)

lemma roundTo_intDiv (n : ℕ) (k : ℤ) :
    roundTo n ((k : ℚ) / 10 ^ n) = (k : ℚ) / 10 ^ n := by
  unfold roundTo
  have hp : (10 : ℚ) ^ n ≠ 0 := by positivity
  rw [div_mul_cancel₀ _ hp, round_intCast]

/-- Rounding after clamping to bounds that sit on the rounding grid keeps
the value inside the bounds. -/
lemma roundTo_clamp_mem (n : ℕ) (a b x : ℚ) (ka kb : ℤ)
    (hka : a = (ka : ℚ) / 10 ^ n) (hkb : b = (kb : ℚ) / 10 ^ n) (hab : a ≤ b) :
    a ≤ roundTo n (max a (min b x)) ∧ roundTo n (max a (min b x)) ≤ b := by
  constructor
  · calc a = roundTo n a := by rw [hka, roundTo_intDiv]
      _ ≤ roundTo n (max a (min b x)) := roundTo_mono n (le_max_left _ _)
  · calc roundTo n (max a (min b x)) ≤ roundTo n b :=
        roundTo_mono n (max_le hab (min_le_left _ _))
      _ = b := by rw [hkb, roundTo_intDiv]

/-- Every lookup result is one of the four table entries. -/
lemma get_cell_specs_cases (cell_type : String) :
    get_cell_specs cell_type = lfpSpecs ∨ get_cell_specs cell_type = nmcSpecs ∨
    get_cell_specs cell_type = ltoSpecs ∨ get_cell_specs cell_type = lifepo4Specs := by
  unfold get_cell_specs
  split_ifs <;> simp

/-- `min_voltage` and `max_voltage` of every lookup result sit on the
3-decimal rounding grid, with `min_voltage ≤ max_voltage`. -/
lemma get_cell_specs_grid (cell_type : String) :
    ∃ ka kb : ℤ, (get_cell_specs cell_type).min_voltage = (ka : ℚ) / 10 ^ 3 ∧
      (get_cell_specs cell_type).max_voltage = (kb : ℚ) / 10 ^ 3 ∧
      (get_cell_specs cell_type).min_voltage ≤ (get_cell_specs cell_type).max_voltage := by
  rcases get_cell_specs_cases cell_type with h | h | h | h <;> rw [h]
  · exact ⟨2800, 3600, by norm_num [lfpSpecs], by norm_num [lfpSpecs], by norm_num [lfpSpecs]⟩
  · exact ⟨3200, 4000, by norm_num [nmcSpecs], by norm_num [nmcSpecs], by norm_num [nmcSpecs]⟩
  · exact ⟨1500, 2800, by norm_num [ltoSpecs], by norm_num [ltoSpecs], by norm_num [ltoSpecs]⟩
  · exact ⟨2500, 3650, by norm_num [lifepo4Specs], by norm_num [lifepo4Specs],
      by norm_num [lifepo4Specs]⟩

/-- The four known identifiers resolve to their own table entries. -/
lemma get_cell_specs_known :
    get_cell_specs "lfp" = lfpSpecs ∧ get_cell_specs "nmc" = nmcSpecs ∧
    get_cell_specs "lto" = ltoSpecs ∧ get_cell_specs "lifepo4" = lifepo4Specs :=
  ⟨rfl, rfl, rfl, rfl⟩

/-- C8: each of the four table entries satisfies
`min_voltage < nominal_voltage < max_voltage` and `max_current ≥ 0`. -/
theorem spec_table_well_formed :
    ((get_cell_specs "lfp").min_voltage < (get_cell_specs "lfp").nominal_voltage ∧
      (get_cell_specs "lfp").nominal_voltage < (get_cell_specs "lfp").max_voltage ∧
      0 ≤ (get_cell_specs "lfp").max_current) ∧
    ((get_cell_specs "nmc").min_voltage < (get_cell_specs "nmc").nominal_voltage ∧
      (get_cell_specs "nmc").nominal_voltage < (get_cell_specs "nmc").max_voltage ∧
      0 ≤ (get_cell_specs "nmc").max_current) ∧
    ((get_cell_specs "lto").min_voltage < (get_cell_specs "lto").nominal_voltage ∧
      (get_cell_specs "lto").nominal_voltage < (get_cell_specs "lto").max_voltage ∧
      0 ≤ (get_cell_specs "lto").max_current) ∧
    ((get_cell_specs "lifepo4").min_voltage < (get_cell_specs "lifepo4").nominal_voltage ∧
      (get_cell_specs "lifepo4").nominal_voltage < (get_cell_specs "lifepo4").max_voltage ∧
      0 ≤ (get_cell_specs "lifepo4").max_current) := by
  obtain ⟨h1, h2, h3, h4⟩ := get_cell_specs_known
  rw [h1, h2, h3, h4]
  norm_num [lfpSpecs, nmcSpecs, ltoSpecs, lifepo4Specs]

/-- C5: the table lookup is total — the four known identifiers map to
their own entries, and every other identifier silently receives the lfp
entry. -/
theorem get_cell_specs_total_default :
    (∀ cell_type : String, cell_type ≠ "lfp" → cell_type ≠ "nmc" →
      cell_type ≠ "lto" → cell_type ≠ "lifepo4" →
      get_cell_specs cell_type = lfpSpecs) ∧
    get_cell_specs "lfp" = lfpSpecs ∧ get_cell_specs "nmc" = nmcSpecs ∧
    get_cell_specs "lto" = ltoSpecs ∧ get_cell_specs "lifepo4" = lifepo4Specs := by
  refine ⟨?_, rfl, rfl, rfl, rfl⟩
  intro cell_type h1 h2 h3 h4
  simp [get_cell_specs, h1, h2, h3, h4]

/-- Witness for C5: an identifier outside the table receives the lfp entry. -/
theorem get_cell_specs_total_default_witness :
    get_cell_specs "sodium" = lfpSpecs :=
  get_cell_specs_total_default.1 "sodium" (by decide) (by decide) (by decide) (by decide)

/-- C4: the status returned by `check_cell_status` is the maximum severity
over the three independent dimension checks. -/
theorem check_cell_status_max_severity (cell_data : CellData) (cell_type : String) :
    (check_cell_status cell_data cell_type).1 =
      statusMax (voltage_severity cell_data (get_cell_specs cell_type))
        (statusMax (current_severity cell_data (get_cell_specs cell_type))
          (temperature_severity cell_data)) := by
  by_cases h1 : cell_data.voltage < (get_cell_specs cell_type).min_voltage <;>
  by_cases h2 : cell_data.voltage > (get_cell_specs cell_type).max_voltage <;>
  by_cases h3 : |cell_data.current| > (get_cell_specs cell_type).max_current <;>
  by_cases h4 : cell_data.temp > 45 <;>
  by_cases h5 : cell_data.temp > 40 <;>
  by_cases h6 : cell_data.temp < 0 <;>
  simp [check_cell_status, voltage_severity, current_severity, temperature_severity,
    statusMax, Status.sev, h1, h2, h3, h4, h5, h6] <;>
  simp_all [not_lt]

/-- C7: the alert list decomposes as the at-most-one voltage alert, then
the at-most-one current alert, then the at-most-one temperature alert, and
the status is Good exactly when the alert list is empty. -/
theorem check_cell_status_alert_order (cell_data : CellData) (cell_type : String) :
    (check_cell_status cell_data cell_type).2 =
      (voltage_alert cell_data (get_cell_specs cell_type)).toList ++
        (current_alert cell_data (get_cell_specs cell_type)).toList ++
        (temperature_alert cell_data).toList ∧
    ((check_cell_status cell_data cell_type).1 = Status.good ↔
      (check_cell_status cell_data cell_type).2 = []) := by
  constructor
  · by_cases h1 : cell_data.voltage < (get_cell_specs cell_type).min_voltage <;>
    by_cases h2 : cell_data.voltage > (get_cell_specs cell_type).max_voltage <;>
    by_cases h3 : |cell_data.current| > (get_cell_specs cell_type).max_current <;>
    by_cases h4 : cell_data.temp > 45 <;>
    by_cases h5 : cell_data.temp > 40 <;>
    by_cases h6 : cell_data.temp < 0 <;>
    simp [check_cell_status, voltage_alert, current_alert, temperature_alert,
      h1, h2, h3, h4, h5, h6]
  · by_cases h1 : cell_data.voltage < (get_cell_specs cell_type).min_voltage <;>
    by_cases h2 : cell_data.voltage > (get_cell_specs cell_type).max_voltage <;>
    by_cases h3 : |cell_data.current| > (get_cell_specs cell_type).max_current <;>
    by_cases h4 : cell_data.temp > 45 <;>
    by_cases h5 : cell_data.temp > 40 <;>
    by_cases h6 : cell_data.temp < 0 <;>
    simp [check_cell_status, h1, h2, h3, h4, h5, h6]

/-- C10: classification depends only on the reading's voltage, current
and temperature — not on its capacity, timestamp, or the voltage range
stored on the reading itself. -/
theorem check_cell_status_noninterference (d1 d2 : CellData) (cell_type : String)
    (hv : d1.voltage = d2.voltage) (hc : d1.current = d2.current)
    (ht : d1.temp = d2.temp) :
    check_cell_status d1 cell_type = check_cell_status d2 cell_type := by
  simp only [check_cell_status, hv, hc, ht]

/-- Witness for C10: two readings differing only in capacity, stored
range and timestamp classify identically. -/
theorem check_cell_status_noninterference_witness :
    check_cell_status
        { voltage := 3.2, current := 0, temp := 30, capacity := 0,
          min_voltage := 2.8, max_voltage := 3.6, timestamp := 0 } "lfp" =
      check_cell_status
        { voltage := 3.2, current := 0, temp := 30, capacity := 99,
          min_voltage := 0, max_voltage := 1, timestamp := 7 } "lfp" :=
  check_cell_status_noninterference _ _ "lfp" rfl rfl rfl

/-- C6: the simulation step keeps the stored voltage within the spec's
`[min_voltage, max_voltage]` and the stored temperature within `[0, 50]`
for every noise draw (clamping happens before the display rounding, and
the bounds sit on the rounding grids), while the stored current is the
unclamped prior current plus the draw, rounded. -/
theorem simulate_real_time_data_bounds (cell_key : String) (base_data : CellData)
    (vDraw tDraw iDraw : ℚ) (now : ℕ) :
    (get_cell_specs (cellTypeOfKey cell_key)).min_voltage ≤
        (simulate_real_time_data cell_key base_data vDraw tDraw iDraw now).voltage ∧
    (simulate_real_time_data cell_key base_data vDraw tDraw iDraw now).voltage ≤
        (get_cell_specs (cellTypeOfKey cell_key)).max_voltage ∧
    0 ≤ (simulate_real_time_data cell_key base_data vDraw tDraw iDraw now).temp ∧
    (simulate_real_time_data cell_key base_data vDraw tDraw iDraw now).temp ≤ 50 ∧
    (simulate_real_time_data cell_key base_data vDraw tDraw iDraw now).current =
        roundTo 2 (base_data.current + iDraw) := by
  have hv : (simulate_real_time_data cell_key base_data vDraw tDraw iDraw now).voltage =
      roundTo 3 (max (get_cell_specs (cellTypeOfKey cell_key)).min_voltage
        (min (get_cell_specs (cellTypeOfKey cell_key)).max_voltage
          (base_data.voltage + vDraw))) := rfl
  have ht : (simulate_real_time_data cell_key base_data vDraw tDraw iDraw now).temp =
      roundTo 1 (max 0 (min 50 (base_data.temp + tDraw))) := rfl
  obtain ⟨ka, kb, hka, hkb, hab⟩ := get_cell_specs_grid (cellTypeOfKey cell_key)
  have hvb := roundTo_clamp_mem 3 _ _ (base_data.voltage + vDraw) ka kb hka hkb hab
  have htb := roundTo_clamp_mem 1 0 50 (base_data.temp + tDraw) 0 500
    (by norm_num) (by norm_num) (by norm_num)
  refine ⟨?_, ?_, ?_, ?_, rfl⟩
  · rw [hv]; exact hvb.1
  · rw [hv]; exact hvb.2
  · rw [ht]; exact htb.1
  · rw [ht]; exact htb.2

/-- C9: a newly added cell is seeded at its chemistry's nominal voltage
with zero current, and a temperature draw from `[25, 35]` stays in
`[25, 35]` after storage. -/
theorem init_cell_seeding (cell_type : String) (tempDraw : ℚ) (now : ℕ)
    (h1 : 25 ≤ tempDraw) (h2 : tempDraw ≤ 35) :
    (init_cell cell_type tempDraw now).voltage =
        (get_cell_specs cell_type).nominal_voltage ∧
    (init_cell cell_type tempDraw now).current = 0 ∧
    25 ≤ (init_cell cell_type tempDraw now).temp ∧
    (init_cell cell_type tempDraw now).temp ≤ 35 := by
  have h25 : roundTo 1 (25 : ℚ) = 25 := by
    have h : ((250 : ℤ) : ℚ) / 10 ^ 1 = 25 := by norm_num
    rw [← h, roundTo_intDiv]
  have h35 : roundTo 1 (35 : ℚ) = 35 := by
    have h : ((350 : ℤ) : ℚ) / 10 ^ 1 = 35 := by norm_num
    rw [← h, roundTo_intDiv]
  have htemp : (init_cell cell_type tempDraw now).temp = roundTo 1 tempDraw := rfl
  refine ⟨rfl, by norm_num [init_cell], ?_, ?_⟩
  · rw [htemp, ← h25]; exact roundTo_mono 1 h1
  · rw [htemp, ← h35]; exact roundTo_mono 1 h2

/-- Witness for C9: seeding an lfp cell with the draw 30 gives nominal
voltage, zero current and a stored temperature in `[25, 35]`. -/
theorem init_cell_seeding_witness :
    (init_cell "lfp" 30 0).voltage = (get_cell_specs "lfp").nominal_voltage ∧
    (init_cell "lfp" 30 0).current = 0 ∧
    25 ≤ (init_cell "lfp" 30 0).temp ∧ (init_cell "lfp" 30 0).temp ≤ 35 :=
  init_cell_seeding "lfp" 30 0 (by norm_num) (by norm_num)

/-- Counterexample to C1: in a simulation step that clamps-then-rounds
voltage 3.3 + 0.0456 with current draw 100, the stored capacity
(round(3.3456 * 100, 2) = 334.56) differs from
round(stored voltage * |stored current|, 2) = round(3.346 * 100, 2)
= 334.6: capacity is computed from the pre-rounding values. -/
theorem capacity_stored_rounding_counterexample :
    (simulate_real_time_data "cell_1_lfp"
        { voltage := 3.3, current := 0, temp := 30, capacity := 0,
          min_voltage := 2.8, max_voltage := 3.6, timestamp := 0 }
        (456/10000) 0 100 1).capacity ≠
      roundTo 2
        ((simulate_real_time_data "cell_1_lfp"
            { voltage := 3.3, current := 0, temp := 30, capacity := 0,
              min_voltage := 2.8, max_voltage := 3.6, timestamp := 0 }
            (456/10000) 0 100 1).voltage *
          |(simulate_real_time_data "cell_1_lfp"
              { voltage := 3.3, current := 0, temp := 30, capacity := 0,
                min_voltage := 2.8, max_voltage := 3.6, timestamp := 0 }
              (456/10000) 0 100 1).current|) := by
  have hk : cellTypeOfKey "cell_1_lfp" = "lfp" := rfl
  simp only [simulate_real_time_data, hk, get_cell_specs, lfpSpecs, roundTo, round_eq]
  norm_num

/-- C1 (amended): after a manual update the stored capacity equals
round(stored voltage * |stored current|, 2) exactly; after a simulation
step the stored capacity equals round(v * |i|, 2) where v is the clamped
pre-rounding voltage and i the unrounded new current — not the stored
(display-rounded) fields. -/
theorem capacity_derived_field_amended :
    (∀ (base_data : CellData) (v i t : ℚ) (now : ℕ),
      (update_cell_data base_data v i t now).capacity =
        roundTo 2 ((update_cell_data base_data v i t now).voltage *
          |(update_cell_data base_data v i t now).current|)) ∧
    (∀ (cell_key : String) (base_data : CellData) (vDraw tDraw iDraw : ℚ) (now : ℕ),
      (simulate_real_time_data cell_key base_data vDraw tDraw iDraw now).capacity =
        roundTo 2 (max (get_cell_specs (cellTypeOfKey cell_key)).min_voltage
            (min (get_cell_specs (cellTypeOfKey cell_key)).max_voltage
              (base_data.voltage + vDraw)) *
          |base_data.current + iDraw|)) :=
  ⟨fun _ _ _ _ _ => rfl, fun _ _ _ _ _ _ => rfl⟩

/-- Counterexample to C2: for an entered type `"lto"` the script seeds
voltage 3.6 where the dashboard seeds 2.4, and for a negative entered
current the script's capacity round(v * i, 2) differs from the
dashboard's round(v * |i|, 2). -/
theorem w1_dashboard_mismatch_counterexample :
    (w1_init_cell "lto" 30).voltage ≠ (init_cell "lto" 30 0).voltage ∧
    (w1_update_current (w1_init_cell "lfp" 30) (-10)).capacity ≠
      roundTo 2 ((w1_init_cell "lfp" 30).voltage * |(-10 : ℚ)|) := by
  constructor
  · have h1 : (w1_init_cell "lto" 30).voltage = 3.6 := rfl
    have h2 : (init_cell "lto" 30 0).voltage = 2.4 := rfl
    rw [h1, h2]; norm_num
  · simp only [w1_update_current, w1_init_cell, roundTo, round_eq]
    norm_num

/-- C2 (amended): the script agrees with the dashboard's cell setup only
for the chemistries `"lfp"` and `"nmc"`; every other entered type gets the
nmc numbers; and its capacity round(voltage * current, 2) agrees with the
dashboard's round(voltage * |current|, 2) exactly when the entered
current is nonnegative. -/
theorem w1_dashboard_agreement_amended :
    (∀ tempDraw : ℚ,
      (w1_init_cell "lfp" tempDraw).voltage = (init_cell "lfp" tempDraw 0).voltage ∧
      (w1_init_cell "lfp" tempDraw).min_voltage = (init_cell "lfp" tempDraw 0).min_voltage ∧
      (w1_init_cell "lfp" tempDraw).max_voltage = (init_cell "lfp" tempDraw 0).max_voltage ∧
      (w1_init_cell "lfp" tempDraw).current = (init_cell "lfp" tempDraw 0).current ∧
      (w1_init_cell "lfp" tempDraw).temp = (init_cell "lfp" tempDraw 0).temp) ∧
    (∀ tempDraw : ℚ,
      (w1_init_cell "nmc" tempDraw).voltage = (init_cell "nmc" tempDraw 0).voltage ∧
      (w1_init_cell "nmc" tempDraw).min_voltage = (init_cell "nmc" tempDraw 0).min_voltage ∧
      (w1_init_cell "nmc" tempDraw).max_voltage = (init_cell "nmc" tempDraw 0).max_voltage ∧
      (w1_init_cell "nmc" tempDraw).current = (init_cell "nmc" tempDraw 0).current ∧
      (w1_init_cell "nmc" tempDraw).temp = (init_cell "nmc" tempDraw 0).temp) ∧
    (∀ cell_type : String, cell_type ≠ "lfp" → ∀ tempDraw : ℚ,
      (w1_init_cell cell_type tempDraw).voltage = nmcSpecs.nominal_voltage ∧
      (w1_init_cell cell_type tempDraw).min_voltage = nmcSpecs.min_voltage ∧
      (w1_init_cell cell_type tempDraw).max_voltage = nmcSpecs.max_voltage) ∧
    (∀ (cell : W1Cell) (i : ℚ), 0 ≤ i →
      (w1_update_current cell i).capacity = roundTo 2 (cell.voltage * |i|)) := by
  refine ⟨fun _ => ⟨rfl, rfl, rfl, rfl, rfl⟩, fun _ => ⟨rfl, rfl, rfl, rfl, rfl⟩,
    fun cell_type h tempDraw => ?_, fun cell i hi => ?_⟩
  · refine ⟨?_, ?_, ?_⟩ <;> simp [w1_init_cell, nmcSpecs, h]
  · rw [abs_of_nonneg hi]; rfl

/-- Witness for C2 (amended): `"lto"` receives the nmc nominal voltage,
and a nonnegative entered current gives the dashboard's capacity. -/
theorem w1_dashboard_agreement_amended_witness :
    (w1_init_cell "lto" 25).voltage = nmcSpecs.nominal_voltage ∧
    (w1_update_current (w1_init_cell "lfp" 30) 2).capacity =
      roundTo 2 ((w1_init_cell "lfp" 30).voltage * |(2 : ℚ)|) :=
  ⟨(w1_dashboard_agreement_amended.2.2.1 "lto" (by decide) 25).1,
   w1_dashboard_agreement_amended.2.2.2 (w1_init_cell "lfp" 30) 2 (by norm_num)⟩

/-- Counterexample to C3: with a single monitored cell (one entry appended
per tick), the history log reaches 800 entries — the cap is the hard-coded
800, not 100 * cell_count = 100. -/
theorem history_cap_counterexample :
    (monitoring_tick_history
        (List.replicate 800
          { timestamp := 0, cell_id := "cell_1_lfp", voltage := 3.2, current := 0,
            temp := 30, capacity := 0 })
        [{ timestamp := 1, cell_id := "cell_1_lfp", voltage := 3.2, current := 0,
            temp := 30, capacity := 0 }]).length = 800 ∧ 100 * 1 < 800 := by
  refine ⟨?_, by norm_num⟩
  unfold monitoring_tick_history
  simp only [List.length_append, List.length_replicate, List.length_cons,
    List.length_nil, List.length_drop]
  norm_num

/-- C3 (amended): after a monitoring tick the history log holds
min(previous + appended, 800) entries — a fixed cap of 800 independent of
the cell count — and the log kept is a suffix of the appended log, so the
evicted entries are exactly the oldest ones (strict FIFO). -/
theorem history_cap_amended (hist new_entries : List HistoryEntry) :
    (monitoring_tick_history hist new_entries).length =
      min (hist ++ new_entries).length 800 ∧
    List.IsSuffix (monitoring_tick_history hist new_entries) (hist ++ new_entries) := by
  have hdef : monitoring_tick_history hist new_entries =
      if (hist ++ new_entries).length > 800 then
        (hist ++ new_entries).drop ((hist ++ new_entries).length - 800)
      else hist ++ new_entries := rfl
  rw [hdef]
  constructor
  · split_ifs with h
    · simp only [List.length_drop]; omega
    · omega
  · split_ifs with h
    · exact List.drop_suffix _ _
    · exact List.suffix_refl _
